import Mathlib

/-!
Shallow embedding of the DMX Web Controller backend
(IT-Networks/Dmx-Web-Controller), covering the Art-Net transmitters in
`backend/main.py` (`ArtNetController.send_dmx`) and
`backend/core/dmx_controller.py`, the per-device frame builder and dedup
cache (`send_device_dmx`), the device REST/WebSocket sinks, the task
supervisor (`enforce_resource_limits` / `start_effect`), the scene fader
guard (`fade_to_scene` / `activate_scene`), and the keyframe easing
function (`EffectEngine._apply_easing`).

Machine bytes are modelled as `Nat` with explicit clamping / `% 256`;
Python dicts become association lists with first-key-wins update; the
UDP transport result is an explicit outcome parameter.
-/

set_option maxRecDepth 8000

namespace Dmx

/-- Clamp a Python int to a byte exactly as `max(0, min(255, int(value)))`. -/
def clampByte (v : Int) : Nat := (max 0 (min 255 v)).toNat

/-- `struct.pack('<H', v)`: two bytes, little-endian. -/
def packLE16 (v : Nat) : List Nat := [v % 256, v / 256 % 256]

/-- `struct.pack('>H', v)`: two bytes, big-endian. -/
def packBE16 (v : Nat) : List Nat := [v / 256 % 256, v % 256]

/-- The 8 header bytes `b'Art-Net\x00'`. -/
def ARTNET_HEADER : List Nat := [65, 114, 116, 45, 78, 101, 116, 0]

/-- The 512-byte Art-Net payload: channel `i` holds the clamped `channels[i]`
for `i < len(channels)`, all remaining bytes 0 (both controllers build the
payload this way). -/
def payload512 (channels : List Int) : List Nat :=
  (List.range 512).map (fun i =>
    if h : i < channels.length then clampByte (channels.get ⟨i, h⟩) else 0)

/-- The 530-byte packet built by `backend/main.py`'s
`ArtNetController.send_dmx`: header `"Art-Net\0"`, OpCode `0x5000`
little-endian, protocol version 14 big-endian, byte 12 (sequence) fixed to
0, byte 13 (physical) 0, universe little-endian, then — unlike the core
module — `len(channels)` big-endian at bytes 16–17, then the payload. -/
def buildPacketMain (univ : Nat) (channels : List Int) : List Nat :=
  ARTNET_HEADER ++ packLE16 0x5000 ++ packBE16 14 ++ [0, 0] ++
    packLE16 univ ++ packBE16 channels.length ++ payload512 channels

/-- The 530-byte packet built by `backend/core/dmx_controller.py`'s
`ArtNetController.send_dmx`: identical header, but byte 12 carries the
per-universe sequence value and bytes 16–17 always hold 512 big-endian. -/
def buildPacketCore (univ seq : Nat) (channels : List Int) : List Nat :=
  ARTNET_HEADER ++ packLE16 0x5000 ++ packBE16 14 ++ [seq, 0] ++
    packLE16 univ ++ packBE16 512 ++ payload512 channels

/-- Python-dict assignment on an association list: update the existing key
in place, otherwise append at the end (dicts preserve insertion order). -/
def assocSet : List (Nat × Nat) → Nat → Nat → List (Nat × Nat)
  | [], k, v => [(k, v)]
  | p :: rest, k, v =>
    if p.1 = k then (k, v) :: rest else p :: assocSet rest k v

/-- The sequence-dict update in `core/dmx_controller.py` lines 52–59: a
fresh universe gets counter 1, an existing one gets `(old + 1) % 256`.
Returns the new dict together with the value placed in the packet. -/
def updateSeq (seqs : List (Nat × Nat)) (u : Nat) : List (Nat × Nat) × Nat :=
  match seqs.lookup u with
  | none => (assocSet seqs u 1, 1)
  | some s => (assocSet seqs u ((s + 1) % 256), (s + 1) % 256)

/-- Outcome of the `sendto` call: success, `socket.timeout`,
`socket.error`, or any other exception. -/
inductive SendOutcome
  | ok
  | timeout
  | sockErr
  | unexpected
deriving DecidableEq

/-- Mutable state of `backend/main.py`'s `ArtNetController`. -/
structure MainCtrlState where
  errorCount : Nat
deriving DecidableEq

/-- Mutable state of `core/dmx_controller.py`'s `ArtNetController`:
the per-universe sequence dict plus the error counter. -/
structure CoreCtrlState where
  sequences : List (Nat × Nat)
  errorCount : Nat
deriving DecidableEq

/-- `backend/main.py` `ArtNetController.send_dmx` (lines 146–202): the
whole body is wrapped in try/except, so the function always returns a
bool. Empty or >512 channel lists are rejected before any packet is
built; a universe out of `struct.pack('<H', ·)` range raises inside the
try and lands in the generic handler; on `socket.error` the error counter
is bumped and reset once it reaches 5 (socket re-init); on success it is
reset. The emitted datagram (if any) is returned alongside. -/
def sendDmxMain (st : MainCtrlState) (oc : SendOutcome) (ip : String)
    (univ : Nat) (channels : List Int) :
    MainCtrlState × Bool × Option (String × List Nat) :=
  if channels.length = 0 ∨ channels.length > 512 then (st, false, none)
  else if univ ≥ 65536 then (st, false, none)
  else
    let packet := buildPacketMain univ channels
    match oc with
    | SendOutcome.ok => (⟨0⟩, true, some (ip, packet))
    | SendOutcome.timeout => (st, false, none)
    | SendOutcome.sockErr =>
        (⟨if st.errorCount + 1 ≥ 5 then 0 else st.errorCount + 1⟩, false, none)
    | SendOutcome.unexpected => (st, false, none)

/-- `core/dmx_controller.py` `ArtNetController.send_dmx` (lines 38–117).
Same shape as the main variant, but the sequence dict is updated before
the packet is built (so it advances even when `sendto` later fails), byte
12 carries the sequence and bytes 16–17 always hold 512. -/
def sendDmxCore (st : CoreCtrlState) (oc : SendOutcome) (ip : String)
    (univ : Nat) (channels : List Int) :
    CoreCtrlState × Bool × Option (String × List Nat) :=
  if channels.length = 0 ∨ channels.length > 512 then (st, false, none)
  else
    let su := updateSeq st.sequences univ
    let st1 : CoreCtrlState := ⟨su.1, st.errorCount⟩
    if univ ≥ 65536 then (st1, false, none)
    else
      let packet := buildPacketCore univ su.2 channels
      match oc with
      | SendOutcome.ok => (⟨su.1, 0⟩, true, some (ip, packet))
      | SendOutcome.timeout => (st1, false, none)
      | SendOutcome.sockErr =>
          (⟨su.1, if st.errorCount + 1 ≥ 5 then 0 else st.errorCount + 1⟩,
            false, none)
      | SendOutcome.unexpected => (st1, false, none)

/-- State of the core controller's sequence dict after `n` valid
`send_dmx` calls on universe 0, starting from a fresh controller. -/
def seqStateAfter : Nat → List (Nat × Nat)
  | 0 => []
  | n + 1 => (updateSeq (seqStateAfter n) 0).1

/-- The sequence byte placed in the `n`-th packet (1-based) on universe 0. -/
def seqByteOfCall : Nat → Nat
  | 0 => 0
  | n + 1 => (updateSeq (seqStateAfter n) 0).2

/-- A device record as stored in the `devices` list of `backend/main.py`.
`id` is `Option` because `device.get('id')` may be absent. -/
structure Device where
  id : Option String
  name : String
  ip : String
  univ : Nat
  startChannel : Int
  channelCount : Nat
  values : List Int
deriving DecidableEq

/-- The placement loop of `send_device_dmx` (lines 452–456): walk
`device['values']` with index `i`, write the clamped value at
`ch = start_channel - 1 + i` whenever `0 <= ch < 512`. -/
def placeChannels (startChannel : Int) : List Nat → Nat → List Int → List Nat
  | acc, _, [] => acc
  | acc, i, v :: rest =>
    let ch : Int := startChannel - 1 + (i : Int)
    let acc' := if 0 ≤ ch ∧ ch < 512 then acc.set ch.toNat (clampByte v) else acc
    placeChannels startChannel acc' (i + 1) rest

/-- The full 512-entry channel frame `send_device_dmx` computes for a
device: zeros everywhere except the device's own window. -/
def computeChannels (startChannel : Int) (values : List Int) : List Nat :=
  placeChannels startChannel (List.replicate 512 0) 0 values

/-- Python-dict assignment on the `dmx_channel_cache` association list. -/
def cacheSet : List (String × List Nat) → String → List Nat →
    List (String × List Nat)
  | [], k, v => [(k, v)]
  | p :: rest, k, v =>
    if p.1 = k then (k, v) :: rest else p :: cacheSet rest k v

/-- Transmitter-facing state of `backend/main.py`: the per-device dedup
cache `dmx_channel_cache` and the log of datagrams actually handed to
`controller.send_dmx` successfully (ip, universe, 512-channel frame). -/
structure TxState where
  cache : List (String × List Nat)
  sent : List (String × Nat × List Nat)
deriving DecidableEq

/-- `send_device_dmx` (`backend/main.py` lines 444–475). A device without
an id is rejected. The 512-channel frame is computed, compared against the
cache entry (`dmx_channel_cache[device_id] == channels` short-circuits
with `True`); otherwise `controller.send_dmx` runs — its boolean result is
the `ok` parameter here — and the cache is updated only when it returned
`True`. -/
def sendDeviceDmx (st : TxState) (dev : Device) (ok : Bool) : TxState × Bool :=
  match dev.id with
  | none => (st, false)
  | some did =>
    let channels := computeChannels dev.startChannel dev.values
    if st.cache.lookup did = some channels then (st, true)
    else if ok then
      (⟨cacheSet st.cache did channels,
        st.sent ++ [(dev.ip, dev.univ, channels)]⟩, true)
    else (st, false)

/-- Uniform `{success: bool}` JSON envelope. -/
structure SimpleResp where
  success : Bool
deriving DecidableEq

/-- Replace the first device whose id matches (Python's
`next((d for d in devices if d.get('id') == device_id), None)` followed by
in-place mutation). -/
def modifyFirstDevice : List Device → String → (Device → Device) → List Device
  | [], _, _ => []
  | d :: rest, did, f =>
    if d.id = some did then f d :: rest else d :: modifyFirstDevice rest did f

/-- `DELETE /api/devices/{device_id}` (`delete_device`, lines 1472–1484):
filter the list by id and answer `{"success": True}` unconditionally. -/
def deleteDevice (devs : List Device) (did : String) :
    List Device × SimpleResp :=
  (devs.filter (fun d => d.id ≠ some did), ⟨true⟩)

/-- `POST /api/devices/{device_id}/values` (`update_device_values`, lines
1487–1505): if a device with the id exists, its `values` field is
overwritten with the request body's list verbatim and the response is
`{"success": True}`; otherwise `{"success": False}` with no mutation. -/
def updateDeviceValues (devs : List Device) (did : String) (vals : List Int) :
    List Device × SimpleResp :=
  if devs.any (fun d => d.id = some did) then
    (modifyFirstDevice devs did (fun d => { d with values := vals }), ⟨true⟩)
  else (devs, ⟨false⟩)

/-- The WebSocket `update_device_value` branch (lines 1948–1962): store
the raw `value` at `channel_idx` of the device's `values` list. -/
def wsUpdateDeviceValue (devs : List Device) (did : String) (idx : Nat)
    (value : Int) : List Device :=
  modifyFirstDevice devs did (fun d => { d with values := d.values.set idx value })

/-- Supervisor state: the `active_effects` and `active_sequences` dicts
(key lists in insertion order) plus the set of task ids whose `cancel()`
has been requested but whose `cleanup_task` has not yet deleted them. -/
structure SupState where
  activeEffects : List String
  activeSequences : List String
  cancelRequested : List String
deriving DecidableEq

/-- `enforce_resource_limits` (lines 1126–1143): at 20 or more active
effects, `cancel()` the oldest (first-inserted) entry — the dict entry is
NOT removed here; removal happens later in `cleanup_task`. Likewise for
sequences at 5. -/
def enforceResourceLimits (st : SupState) : SupState :=
  let st1 :=
    if st.activeEffects.length ≥ 20 then
      match st.activeEffects with
      | [] => st
      | oldest :: _ =>
        { st with cancelRequested := st.cancelRequested ++ [oldest] }
    else st
  if st1.activeSequences.length ≥ 5 then
    match st1.activeSequences with
    | [] => st1
    | oldest :: _ =>
      { st1 with cancelRequested := st1.cancelRequested ++ [oldest] }
  else st1

/-- The synchronous prefix of `start_effect` (lines 1146–1268) for an id
not currently in `active_effects`: run `enforce_resource_limits`, then —
with no intervening suspension point — register the new task under
`effect_id` (for a known effect type) and return `True`; an unknown type
returns `False` without registering. -/
def startEffectFresh (st : SupState) (eid : String) (knownType : Bool) :
    SupState × Bool :=
  let st1 := enforceResourceLimits st
  if knownType then
    ({ st1 with activeEffects := st1.activeEffects ++ [eid] }, true)
  else (st1, false)

/-- `cleanup_task` (lines 1112–1123) finishing for effect `eid`: delete
the id from the `active_effects` dict. -/
def cleanupEffect (st : SupState) (eid : String) : SupState :=
  { st with activeEffects := st.activeEffects.filter (fun x => x ≠ eid) }

/-- `start_sequence` (lines 1334–1351) for an id not currently in
`active_sequences`: there is no resource-limit check at all — when the
sequence config exists (`found`), the playback task is registered
unconditionally and the call returns `True`; a missing config returns
`False` with nothing registered. Sequence tasks are also never wrapped in
`cleanup_task`, so no deferred deregistration is scheduled here. -/
def startSequenceFresh (st : SupState) (sid : String) (found : Bool) :
    SupState × Bool :=
  if found then
    ({ st with activeSequences := st.activeSequences ++ [sid] }, true)
  else (st, false)

/-- A scene: id, name, and the device-name-keyed value snapshot. -/
structure Scene where
  id : String
  name : String
  deviceValues : List (String × List Int)
deriving DecidableEq

/-- Global fader state: the `is_fading` flag, scene list, device list. -/
structure FadeState where
  isFading : Bool
  scenes : List Scene
  devs : List Device
deriving DecidableEq

/-- The synchronous head of `fade_to_scene` (lines 1364–1376): an ongoing
fade (`is_fading`) returns immediately — nothing queued, no state touched;
a missing scene id resets the flag and returns; otherwise the fade starts
(flag set, result `true`). -/
def fadeToSceneStart (st : FadeState) (sid : String) : FadeState × Bool :=
  if st.isFading then (st, false)
  else
    match st.scenes.find? (fun s => s.id = sid) with
    | none => (st, false)
    | some _ => ({ st with isFading := true }, true)

/-- Response of `POST /api/scenes/{scene_id}/activate`. -/
structure ActivateResp where
  success : Bool
  fading : Bool
deriving DecidableEq

/-- `activate_scene` (lines 1564–1570): spawn `fade_to_scene` as a task
(composed here as its synchronous head) and always answer
`{"success": True, "fading": True}`. -/
def activateScene (st : FadeState) (sid : String) : FadeState × ActivateResp :=
  ((fadeToSceneStart st sid).1, ⟨true, true⟩)

/-- `EffectEngine._apply_easing` (lines 989–999), over the rationals:
`ease-in` ↦ t², `ease-out` ↦ 1−(1−t)², `ease-in-out` ↦ 3t²−2t³, anything
else (including `linear`) ↦ t. -/
def applyEasing (t : ℚ) (easing : String) : ℚ :=
  if easing = "ease-in" then t * t
  else if easing = "ease-out" then 1 - (1 - t) * (1 - t)
  else if easing = "ease-in-out" then 3 * t * t - 2 * t * t * t
  else t

/-- A concrete RGB device at start channel 1 with three zeroed channels. -/
def demoDevice : Device :=
  ⟨some "d1", "L1", "10.0.0.5", 0, 1, 3, [0, 0, 0]⟩

/-- A supervisor state holding twenty distinct running effect ids. -/
def demoSup : SupState :=
  ⟨["e01", "e02", "e03", "e04", "e05", "e06", "e07", "e08", "e09", "e10",
    "e11", "e12", "e13", "e14", "e15", "e16", "e17", "e18", "e19", "e20"],
    [], []⟩

/-- A supervisor state holding five running sequence ids (the cap). -/
def demoSupSeq : SupState :=
  ⟨[], ["q1", "q2", "q3", "q4", "q5"], []⟩

end Dmx

namespace Dmx

/-- Claim C1 (code bug): the core controller's own comment documents the
sequence byte as 1–255, but the `(old + 1) % 256` update makes the 256th
packet on a universe carry sequence byte 0 (255 is followed by 0, not 1);
the backend app's controller writes a constant 0 into byte 12. -/
theorem artnet_sequence_wraps_to_zero :
    seqByteOfCall 255 = 255 ∧ seqByteOfCall 256 = 0 ∧
    seqStateAfter 255 = [(0, 255)] ∧
    ((sendDmxCore ⟨[(0, 255)], 0⟩ SendOutcome.ok "10.0.0.5" 0 [7]).2.2.map
      (fun p => p.2[12]?)) = some (some 0) ∧
    ((sendDmxMain ⟨0⟩ SendOutcome.ok "10.0.0.5" 0 [7]).2.2.map
      (fun p => p.2[12]?)) = some (some 0) := by
  decide

/-- Claim C2 (counterexample): a packet emitted by the backend app's
`send_dmx` for a one-element channel list has bytes 16–17 equal to
`0x00,0x01` (the channel-list length, big-endian) and not `0x02,0x00`. -/
theorem artnet_length_bytes_cex :
    (sendDmxMain ⟨0⟩ SendOutcome.ok "10.0.0.5" 0 [7]).2.2.map
        (fun p => (p.2[16]?, p.2[17]?)) = some (some 0, some 1) ∧
    (sendDmxMain ⟨0⟩ SendOutcome.ok "10.0.0.5" 0 [7]).2.2.map
        (fun p => (p.2[16]?, p.2[17]?)) ≠ some (some 2, some 0) := by
  decide

/-- Claim C3 (counterexample): POSTing `values = [300]` to a 3-channel
device stores the list verbatim, so afterwards the device at rest has
`len(values) = 1 ≠ channel_count = 3` and an element 300 > 255. -/
theorem device_values_unclamped_cex :
    (updateDeviceValues [demoDevice] "d1" [300]).1 =
      [{ demoDevice with values := [300] }] ∧
    ¬ (∀ d ∈ (updateDeviceValues [demoDevice] "d1" [300]).1,
        d.values.length = d.channelCount ∧ ∀ v ∈ d.values, 0 ≤ v ∧ v ≤ 255) := by
  decide

/-- Claim C4 (counterexample): starting a fresh effect while twenty are
active cancels the oldest but does not remove it from the dict, so right
after registration `active_effects` holds 21 entries — the cap is
exceeded momentarily. -/
theorem supervisor_cap_exceeded_cex :
    (startEffectFresh demoSup "e21" true).1.activeEffects.length = 21 ∧
    ¬ (startEffectFresh demoSup "e21" true).1.activeEffects.length ≤ 20 := by
  decide

/-- Claim C7 (counterexample): deleting an id that is not in the device
list answers `{"success": True}`, not a `success:false` not-found error. -/
theorem delete_missing_returns_success_cex :
    (deleteDevice [demoDevice] "ghost").2 = ⟨true⟩ ∧
    (deleteDevice [demoDevice] "ghost").2.success ≠ false := by
  decide

/-- Claim C2 (amended): an emitted datagram of the backend app's
`send_dmx` is exactly 530 bytes with header `"Art-Net\0"`, OpCode bytes
`0x00,0x50`, protocol bytes `0x00,0x0E`; bytes 16–17 carry the length of
the `channels` argument big-endian (not a fixed 512); the standalone
core-module controller instead always writes `0x02,0x00` there. -/
theorem artnet_frame_layout (stM : MainCtrlState) (ip : String)
    (u seq : Nat) (ch : List Int)
    (h1 : 1 ≤ ch.length) (h2 : ch.length ≤ 512) (hu : u < 65536) :
    (sendDmxMain stM SendOutcome.ok ip u ch).2.2 =
      some (ip, buildPacketMain u ch) ∧
    (buildPacketMain u ch).length = 530 ∧
    (buildPacketMain u ch).take 8 = [65, 114, 116, 45, 78, 101, 116, 0] ∧
    (buildPacketMain u ch)[8]? = some 0x00 ∧
    (buildPacketMain u ch)[9]? = some 0x50 ∧
    (buildPacketMain u ch)[10]? = some 0x00 ∧
    (buildPacketMain u ch)[11]? = some 0x0E ∧
    (buildPacketMain u ch)[16]? = some (ch.length / 256) ∧
    (buildPacketMain u ch)[17]? = some (ch.length % 256) ∧
    (buildPacketCore u seq ch).length = 530 ∧
    (buildPacketCore u seq ch).take 8 = [65, 114, 116, 45, 78, 101, 116, 0] ∧
    (buildPacketCore u seq ch)[8]? = some 0x00 ∧
    (buildPacketCore u seq ch)[9]? = some 0x50 ∧
    (buildPacketCore u seq ch)[10]? = some 0x00 ∧
    (buildPacketCore u seq ch)[11]? = some 0x0E ∧
    (buildPacketCore u seq ch)[16]? = some 0x02 ∧
    (buildPacketCore u seq ch)[17]? = some 0x00 := by
  have h16 : (buildPacketMain u ch)[16]? = some (ch.length / 256 % 256) := rfl
  rw [Nat.mod_eq_of_lt (by omega : ch.length / 256 < 256)] at h16
  refine ⟨?_, ?_, rfl, rfl, rfl, rfl, rfl, h16, rfl, ?_, rfl, rfl, rfl, rfl,
    rfl, rfl, rfl⟩
  · simp only [sendDmxMain]
    rw [if_neg (by omega), if_neg (by omega)]
  · simp [buildPacketMain, ARTNET_HEADER, packLE16, packBE16, payload512]
  · simp [buildPacketCore, ARTNET_HEADER, packLE16, packBE16, payload512]

/-- Witness for `artnet_frame_layout` at a 3-channel RGB frame. -/
theorem artnet_frame_layout_witness :
    (1 ≤ ([255, 128, 0] : List Int).length) ∧
    (([255, 128, 0] : List Int).length ≤ 512) ∧ ((0 : Nat) < 65536) ∧
    ((sendDmxMain ⟨0⟩ SendOutcome.ok "10.0.0.5" 0 [255, 128, 0]).2.2 =
      some ("10.0.0.5", buildPacketMain 0 [255, 128, 0]) ∧
    (buildPacketMain 0 [255, 128, 0]).length = 530 ∧
    (buildPacketMain 0 [255, 128, 0]).take 8 =
      [65, 114, 116, 45, 78, 101, 116, 0] ∧
    (buildPacketMain 0 [255, 128, 0])[8]? = some 0x00 ∧
    (buildPacketMain 0 [255, 128, 0])[9]? = some 0x50 ∧
    (buildPacketMain 0 [255, 128, 0])[10]? = some 0x00 ∧
    (buildPacketMain 0 [255, 128, 0])[11]? = some 0x0E ∧
    (buildPacketMain 0 [255, 128, 0])[16]? =
      some (([255, 128, 0] : List Int).length / 256) ∧
    (buildPacketMain 0 [255, 128, 0])[17]? =
      some (([255, 128, 0] : List Int).length % 256) ∧
    (buildPacketCore 0 1 [255, 128, 0]).length = 530 ∧
    (buildPacketCore 0 1 [255, 128, 0]).take 8 =
      [65, 114, 116, 45, 78, 101, 116, 0] ∧
    (buildPacketCore 0 1 [255, 128, 0])[8]? = some 0x00 ∧
    (buildPacketCore 0 1 [255, 128, 0])[9]? = some 0x50 ∧
    (buildPacketCore 0 1 [255, 128, 0])[10]? = some 0x00 ∧
    (buildPacketCore 0 1 [255, 128, 0])[11]? = some 0x0E ∧
    (buildPacketCore 0 1 [255, 128, 0])[16]? = some 0x02 ∧
    (buildPacketCore 0 1 [255, 128, 0])[17]? = some 0x00) :=
  ⟨by decide, by decide, by decide,
    artnet_frame_layout ⟨0⟩ "10.0.0.5" 0 1 [255, 128, 0]
      (by decide) (by decide) (by decide)⟩

/-- A byte produced by the clamp `max(0, min(255, int(value)))` is ≤ 255. -/
theorem clampByte_le (v : Int) : clampByte v ≤ 255 := by
  unfold clampByte
  rw [Int.toNat_le]
  exact max_le (by norm_num) (le_trans (min_le_left _ _) (by norm_num))

/-- The placement loop writes only clamped bytes, so it preserves the
all-bytes-≤-255 invariant of the accumulator. -/
theorem placeChannels_le_255 (s : Int) :
    ∀ (vs : List Int) (acc : List Nat) (i : Nat),
      (∀ c ∈ acc, c ≤ 255) → ∀ c ∈ placeChannels s acc i vs, c ≤ 255 := by
  intro vs
  induction vs with
  | nil =>
    intro acc i h
    simpa [placeChannels] using h
  | cons v rest ih =>
    intro acc i h
    rw [placeChannels]
    apply ih
    intro c hc
    split at hc
    · rcases List.mem_or_eq_of_mem_set hc with hmem | heq
      · exact h c hmem
      · exact heq ▸ clampByte_le v
    · exact h c hc

/-- Every entry of the 512-channel frame `send_device_dmx` computes is a
legal DMX byte value. -/
theorem computeChannels_le_255 (s : Int) (vals : List Int) :
    ∀ c ∈ computeChannels s vals, c ≤ 255 := by
  apply placeChannels_le_255
  intro c hc
  rw [List.eq_of_mem_replicate hc]
  exact Nat.zero_le _

/-- Claim C3 (amended): `update_device_values` overwrites the device's
`values` with the request list verbatim — no clamping, no length check —
and answers success; the WebSocket `update_device_value` likewise stores
the raw value. Only the transmitted frame built by `send_device_dmx` is
clamped to bytes. -/
theorem device_values_stored_verbatim (d : Device) (rest : List Device)
    (did : String) (vals : List Int) (idx : Nat) (v : Int)
    (hid : d.id = some did) :
    (updateDeviceValues (d :: rest) did vals).1 =
      { d with values := vals } :: rest ∧
    (updateDeviceValues (d :: rest) did vals).2 = ⟨true⟩ ∧
    wsUpdateDeviceValue (d :: rest) did idx v =
      { d with values := d.values.set idx v } :: rest ∧
    ∀ c ∈ computeChannels d.startChannel vals, c ≤ 255 := by
  refine ⟨?_, ?_, ?_, computeChannels_le_255 _ _⟩ <;>
    simp [updateDeviceValues, modifyFirstDevice, wsUpdateDeviceValue, hid]

/-- Witness for `device_values_stored_verbatim`: the oversized write
`[300]` against the demo device. -/
theorem device_values_stored_verbatim_witness :
    demoDevice.id = some "d1" ∧
    ((updateDeviceValues [demoDevice] "d1" [300]).1 =
      [{ demoDevice with values := [300] }] ∧
    (updateDeviceValues [demoDevice] "d1" [300]).2 = ⟨true⟩ ∧
    wsUpdateDeviceValue [demoDevice] "d1" 0 500 =
      [{ demoDevice with values := demoDevice.values.set 0 500 }] ∧
    ∀ c ∈ computeChannels demoDevice.startChannel [300], c ≤ 255) :=
  ⟨rfl, device_values_stored_verbatim demoDevice [] "d1" [300] 0 500 rfl⟩

/-- Claim C4 (amended): with the effect cap of 20 reached, starting a
fresh effect requests cancellation of the oldest entry but registers the
new task before the cancelled task's cleanup deletes its entry, so the
dict momentarily holds 21 ids; once `cleanup_task` for the oldest id
runs, the occupancy is back to 20. The sequence cap is not enforced on
sequence starts at all: `start_sequence` performs no limit check, so
playing a fresh sequence with five active registers a sixth entry and
cancels nothing. -/
theorem supervisor_cap_restored_after_cleanup (st stq : SupState)
    (eid old sid : String) (rest : List String) :
    (st.activeEffects = old :: rest →
     st.activeEffects.length = 20 →
     st.activeEffects.Nodup →
     eid ∉ st.activeEffects →
     st.activeSequences.length < 5 →
      (startEffectFresh st eid true).2 = true ∧
      (startEffectFresh st eid true).1.activeEffects.length = 21 ∧
      old ∈ (startEffectFresh st eid true).1.cancelRequested ∧
      (cleanupEffect (startEffectFresh st eid true).1
        old).activeEffects.length = 20) ∧
    (stq.activeSequences.length = 5 →
      (startSequenceFresh stq sid true).2 = true ∧
      (startSequenceFresh stq sid true).1.activeSequences.length = 6 ∧
      (startSequenceFresh stq sid true).1.cancelRequested =
        stq.cancelRequested ∧
      (startSequenceFresh stq sid true).1.activeEffects =
        stq.activeEffects) := by
  refine ⟨fun hact hlen hnd hnew hseq => ?_, fun hq => ?_⟩
  case refine_2 =>
    unfold startSequenceFresh
    simp [hq]
  have hold : old ∉ rest := by
    rw [hact] at hnd
    exact (List.nodup_cons.mp hnd).1
  have heo : eid ≠ old := by
    rw [hact] at hnew
    intro e
    exact hnew (e ▸ List.mem_cons_self _ _)
  have hrl : rest.length = 19 := by
    rw [hact] at hlen
    simpa using hlen
  have henf : enforceResourceLimits st =
      { st with cancelRequested := st.cancelRequested ++ [old] } := by
    unfold enforceResourceLimits
    rw [hact]
    have h20 : (old :: rest).length ≥ 20 := by
      rw [← hact]
      omega
    rw [if_pos h20,
      if_neg (by simpa using (by omega : ¬ st.activeSequences.length ≥ 5))]
  have hstart : startEffectFresh st eid true =
      ({ st with activeEffects := st.activeEffects ++ [eid],
                 cancelRequested := st.cancelRequested ++ [old] }, true) := by
    unfold startEffectFresh
    rw [henf]
    rfl
  have hfr : rest.filter (fun x => x ≠ old) = rest := by
    apply List.filter_eq_self.mpr
    intro a ha
    have hao : a ≠ old := fun e => hold (e ▸ ha)
    simpa using hao
  refine ⟨by rw [hstart], ?_, ?_, ?_⟩
  · rw [hstart]
    simp [hact, hrl]
  · rw [hstart]
    simp
  · rw [hstart]
    unfold cleanupEffect
    simp only [hact]
    rw [List.cons_append, List.filter_cons, List.filter_append, hfr]
    simp [heo, hrl]

/-- Witness for `supervisor_cap_restored_after_cleanup` on the demo
supervisor states with 20 running effects and 5 running sequences. -/
theorem supervisor_cap_restored_witness :
    demoSup.activeEffects =
      "e01" :: ["e02", "e03", "e04", "e05", "e06", "e07", "e08", "e09",
        "e10", "e11", "e12", "e13", "e14", "e15", "e16", "e17", "e18",
        "e19", "e20"] ∧
    demoSup.activeEffects.length = 20 ∧
    demoSup.activeEffects.Nodup ∧
    "e21" ∉ demoSup.activeEffects ∧
    demoSup.activeSequences.length < 5 ∧
    ((startEffectFresh demoSup "e21" true).2 = true ∧
    (startEffectFresh demoSup "e21" true).1.activeEffects.length = 21 ∧
    "e01" ∈ (startEffectFresh demoSup "e21" true).1.cancelRequested ∧
    (cleanupEffect (startEffectFresh demoSup "e21" true).1
      "e01").activeEffects.length = 20) ∧
    demoSupSeq.activeSequences.length = 5 ∧
    ((startSequenceFresh demoSupSeq "q6" true).2 = true ∧
    (startSequenceFresh demoSupSeq "q6" true).1.activeSequences.length = 6 ∧
    (startSequenceFresh demoSupSeq "q6" true).1.cancelRequested =
      demoSupSeq.cancelRequested ∧
    (startSequenceFresh demoSupSeq "q6" true).1.activeEffects =
      demoSupSeq.activeEffects) :=
  ⟨rfl, by decide, by decide, by decide, by decide,
    (supervisor_cap_restored_after_cleanup demoSup demoSupSeq "e21" "e01"
      "q6" ["e02", "e03", "e04", "e05", "e06", "e07", "e08", "e09", "e10",
        "e11", "e12", "e13", "e14", "e15", "e16", "e17", "e18", "e19",
        "e20"]).1 rfl (by decide) (by decide) (by decide) (by decide),
    by decide,
    (supervisor_cap_restored_after_cleanup demoSup demoSupSeq "e21" "e01"
      "q6" []).2 (by decide)⟩

/-- On a cache miss with the transport succeeding, `send_device_dmx`
updates the cache and logs exactly one datagram. -/
theorem sendDeviceDmx_miss_ok (st : TxState) (dev : Device) (did : String)
    (hid : dev.id = some did)
    (hmiss : st.cache.lookup did ≠
      some (computeChannels dev.startChannel dev.values)) :
    sendDeviceDmx st dev true =
      (⟨cacheSet st.cache did (computeChannels dev.startChannel dev.values),
        st.sent ++
          [(dev.ip, dev.univ, computeChannels dev.startChannel dev.values)]⟩,
        true) := by
  unfold sendDeviceDmx
  rw [hid]
  simp [if_neg hmiss]

/-- On a cache miss with the transport failing, `send_device_dmx` leaves
the state — cache included — untouched and returns `False`. -/
theorem sendDeviceDmx_miss_fail (st : TxState) (dev : Device) (did : String)
    (hid : dev.id = some did)
    (hmiss : st.cache.lookup did ≠
      some (computeChannels dev.startChannel dev.values)) :
    sendDeviceDmx st dev false = (st, false) := by
  unfold sendDeviceDmx
  rw [hid]
  simp [if_neg hmiss]

/-- Python-dict assignment followed by lookup of the same key. -/
theorem lookup_cacheSet (c : List (String × List Nat)) (k : String)
    (v : List Nat) : (cacheSet c k v).lookup k = some v := by
  induction c with
  | nil => simp [cacheSet, List.lookup]
  | cons p rest ih =>
    by_cases h : p.1 = k
    · simp [cacheSet, h, List.lookup]
    · have h2 : (k == p.1) = false := by
        simp only [beq_eq_false_iff_ne]
        exact fun e => h e.symm
      simp [cacheSet, h, List.lookup, h2, ih]

/-- Claim C5: two consecutive `send_device_dmx` calls with unchanged
device values produce exactly one outbound datagram — the first call
appends one entry to the send log and fills the cache, the second call
finds the cache equal to the recomputed frame, skips the send (state
unchanged) and returns `True`. -/
theorem dedup_second_send_skipped (st : TxState) (dev : Device)
    (did : String) (hid : dev.id = some did)
    (hmiss : st.cache.lookup did ≠
      some (computeChannels dev.startChannel dev.values)) :
    (sendDeviceDmx st dev true).2 = true ∧
    (sendDeviceDmx st dev true).1.sent =
      st.sent ++
        [(dev.ip, dev.univ, computeChannels dev.startChannel dev.values)] ∧
    sendDeviceDmx (sendDeviceDmx st dev true).1 dev true =
      ((sendDeviceDmx st dev true).1, true) := by
  have e1 := sendDeviceDmx_miss_ok st dev did hid hmiss
  have e2 : sendDeviceDmx (sendDeviceDmx st dev true).1 dev true =
      ((sendDeviceDmx st dev true).1, true) := by
    rw [e1]
    unfold sendDeviceDmx
    rw [hid]
    simp [lookup_cacheSet]
  exact ⟨by rw [e1], by rw [e1], e2⟩

/-- Witness for `dedup_second_send_skipped`: the demo device against an
empty transmitter state. -/
theorem dedup_second_send_skipped_witness :
    demoDevice.id = some "d1" ∧
    (⟨[], []⟩ : TxState).cache.lookup "d1" ≠
      some (computeChannels demoDevice.startChannel demoDevice.values) ∧
    ((sendDeviceDmx ⟨[], []⟩ demoDevice true).2 = true ∧
    (sendDeviceDmx ⟨[], []⟩ demoDevice true).1.sent =
      ([] : List (String × Nat × List Nat)) ++
        [(demoDevice.ip, demoDevice.univ,
          computeChannels demoDevice.startChannel demoDevice.values)] ∧
    sendDeviceDmx (sendDeviceDmx ⟨[], []⟩ demoDevice true).1 demoDevice true =
      ((sendDeviceDmx ⟨[], []⟩ demoDevice true).1, true)) :=
  ⟨rfl, by simp [List.lookup],
    dedup_second_send_skipped ⟨[], []⟩ demoDevice "d1" rfl
      (by simp [List.lookup])⟩

/-- Claim C10: a failed UDP send leaves the dedup cache entry unchanged
(the whole state, in fact), so an immediately repeated call with the same
device values does not short-circuit: it retries the send and, when that
one succeeds, logs the datagram and returns `True`. -/
theorem cache_unchanged_on_failed_send (st : TxState) (dev : Device)
    (did : String) (hid : dev.id = some did)
    (hmiss : st.cache.lookup did ≠
      some (computeChannels dev.startChannel dev.values)) :
    sendDeviceDmx st dev false = (st, false) ∧
    (sendDeviceDmx (sendDeviceDmx st dev false).1 dev true).2 = true ∧
    (sendDeviceDmx (sendDeviceDmx st dev false).1 dev true).1.sent =
      st.sent ++
        [(dev.ip, dev.univ, computeChannels dev.startChannel dev.values)] := by
  have e0 := sendDeviceDmx_miss_fail st dev did hid hmiss
  have e1 := sendDeviceDmx_miss_ok st dev did hid hmiss
  refine ⟨e0, ?_, ?_⟩ <;> rw [e0] <;> rw [e1]

/-- Witness for `cache_unchanged_on_failed_send`: the demo device, first
send failing, retry succeeding. -/
theorem cache_unchanged_on_failed_send_witness :
    demoDevice.id = some "d1" ∧
    (⟨[], []⟩ : TxState).cache.lookup "d1" ≠
      some (computeChannels demoDevice.startChannel demoDevice.values) ∧
    (sendDeviceDmx ⟨[], []⟩ demoDevice false = (⟨[], []⟩, false) ∧
    (sendDeviceDmx (sendDeviceDmx ⟨[], []⟩ demoDevice false).1 demoDevice
      true).2 = true ∧
    (sendDeviceDmx (sendDeviceDmx ⟨[], []⟩ demoDevice false).1 demoDevice
      true).1.sent =
      ([] : List (String × Nat × List Nat)) ++
        [(demoDevice.ip, demoDevice.univ,
          computeChannels demoDevice.startChannel demoDevice.values)]) :=
  ⟨rfl, by simp [List.lookup],
    cache_unchanged_on_failed_send ⟨[], []⟩ demoDevice "d1" rfl
      (by simp [List.lookup])⟩

/-- Claim C6: while `is_fading` is set, a further scene activation still
answers `{"success": True, "fading": True}` but its spawned
`fade_to_scene` returns at the guard — no second fade starts, no device
is touched, nothing is queued (the state is exactly unchanged). -/
theorem fade_mutually_exclusive (st : FadeState) (sid : String)
    (h : st.isFading = true) :
    activateScene st sid = (st, ⟨true, true⟩) ∧
    (fadeToSceneStart st sid).2 = false := by
  unfold activateScene fadeToSceneStart
  simp [h]

/-- Witness for `fade_mutually_exclusive`: a state mid-fade. -/
theorem fade_mutually_exclusive_witness :
    (⟨true, [], [demoDevice]⟩ : FadeState).isFading = true ∧
    (activateScene ⟨true, [], [demoDevice]⟩ "s1" =
      (⟨true, [], [demoDevice]⟩, ⟨true, true⟩) ∧
    (fadeToSceneStart ⟨true, [], [demoDevice]⟩ "s1").2 = false) :=
  ⟨rfl, fade_mutually_exclusive ⟨true, [], [demoDevice]⟩ "s1" rfl⟩

/-- Claim C7 (amended): for an id absent from the device list, DELETE
answers `{"success": True}` (no not-found error) and POST …/values
answers `{"success": False}` (without an error message); neither request
changes the device list. -/
theorem missing_id_no_mutation (devs : List Device) (did : String)
    (vals : List Int) (h : ∀ d ∈ devs, d.id ≠ some did) :
    deleteDevice devs did = (devs, ⟨true⟩) ∧
    updateDeviceValues devs did vals = (devs, ⟨false⟩) := by
  constructor
  · unfold deleteDevice
    rw [List.filter_eq_self.mpr]
    intro a ha
    simpa using h a ha
  · unfold updateDeviceValues
    rw [if_neg]
    intro hany
    rw [List.any_eq_true] at hany
    obtain ⟨d, hd, he⟩ := hany
    exact h d hd (by simpa using he)

/-- Witness for `missing_id_no_mutation`: the ghost id against the demo
device list. -/
theorem missing_id_no_mutation_witness :
    (∀ d ∈ [demoDevice], d.id ≠ some "ghost") ∧
    (deleteDevice [demoDevice] "ghost" = ([demoDevice], ⟨true⟩) ∧
    updateDeviceValues [demoDevice] "ghost" [1, 2] =
      ([demoDevice], ⟨false⟩)) :=
  ⟨by decide, missing_id_no_mutation [demoDevice] "ghost" [1, 2] (by decide)⟩

/-- Unfolding of `_apply_easing` at the `linear` (default) branch. -/
theorem applyEasing_linear (t : ℚ) : applyEasing t "linear" = t := rfl

/-- Unfolding of `_apply_easing` at the `ease-in` branch. -/
theorem applyEasing_easeIn (t : ℚ) : applyEasing t "ease-in" = t * t := rfl

/-- Unfolding of `_apply_easing` at the `ease-out` branch. -/
theorem applyEasing_easeOut (t : ℚ) :
    applyEasing t "ease-out" = 1 - (1 - t) * (1 - t) := rfl

/-- Unfolding of `_apply_easing` at the `ease-in-out` branch. -/
theorem applyEasing_easeInOut (t : ℚ) :
    applyEasing t "ease-in-out" = 3 * t * t - 2 * t * t * t := rfl

/-- Claim C8: the four easing functions compute `f`, `f²`, `1−(1−f)²`
and `3f²−2f³`, and on `[0,1]` each is monotonically non-decreasing with
values in `[0,1]`. -/
theorem easing_formulas_monotone_bounded :
    (∀ t : ℚ, applyEasing t "linear" = t ∧ applyEasing t "ease-in" = t * t ∧
      applyEasing t "ease-out" = 1 - (1 - t) * (1 - t) ∧
      applyEasing t "ease-in-out" = 3 * t * t - 2 * t * t * t) ∧
    (∀ e ∈ (["linear", "ease-in", "ease-out", "ease-in-out"] : List String),
      ∀ f g : ℚ, 0 ≤ f → f ≤ g → g ≤ 1 →
        applyEasing f e ≤ applyEasing g e ∧
        0 ≤ applyEasing f e ∧ applyEasing f e ≤ 1) := by
  constructor
  · intro t
    exact ⟨applyEasing_linear t, applyEasing_easeIn t, applyEasing_easeOut t,
      applyEasing_easeInOut t⟩
  · intro e he f g hf hfg hg
    have hf1 : f ≤ 1 := le_trans hfg hg
    have hg0 : 0 ≤ g := le_trans hf hfg
    simp only [List.mem_cons, List.mem_singleton, List.not_mem_nil,
      or_false] at he
    rcases he with rfl | rfl | rfl | rfl
    · rw [applyEasing_linear, applyEasing_linear]
      exact ⟨hfg, hf, hf1⟩
    · rw [applyEasing_easeIn, applyEasing_easeIn]
      refine ⟨by nlinarith, by nlinarith, by nlinarith⟩
    · rw [applyEasing_easeOut, applyEasing_easeOut]
      refine ⟨by nlinarith, by nlinarith, by nlinarith⟩
    · rw [applyEasing_easeInOut, applyEasing_easeInOut]
      refine ⟨by nlinarith
          [mul_nonneg (sub_nonneg.mpr hfg) (mul_nonneg hf (sub_nonneg.mpr hg)),
          mul_nonneg (sub_nonneg.mpr hfg) (mul_nonneg hg0 (sub_nonneg.mpr hf1)),
          mul_nonneg (sub_nonneg.mpr hfg) (mul_nonneg hf (sub_nonneg.mpr hf1)),
          mul_nonneg (sub_nonneg.mpr hfg) (mul_nonneg hg0 (sub_nonneg.mpr hg))],
        by nlinarith [mul_nonneg (mul_nonneg hf hf) (sub_nonneg.mpr hf1),
          mul_nonneg hf hf],
        by nlinarith [sq_nonneg (1 - f),
          mul_nonneg (mul_nonneg (sub_nonneg.mpr hf1) (sub_nonneg.mpr hf1)) hf]⟩

/-- Witness for `easing_formulas_monotone_bounded` at `ease-in-out`,
`f = 0`, `g = 1`. -/
theorem easing_formulas_witness :
    ("ease-in-out" ∈
      (["linear", "ease-in", "ease-out", "ease-in-out"] : List String)) ∧
    ((0 : ℚ) ≤ 0) ∧ ((0 : ℚ) ≤ 1) ∧ ((1 : ℚ) ≤ 1) ∧
    (applyEasing 0 "ease-in-out" ≤ applyEasing 1 "ease-in-out" ∧
      0 ≤ applyEasing 0 "ease-in-out" ∧
      applyEasing 0 "ease-in-out" ≤ 1) :=
  ⟨by decide, by decide, by decide, by decide,
    easing_formulas_monotone_bounded.2 "ease-in-out" (by decide) 0 1
      (by decide) (by decide) (by decide)⟩

/-- Claim C9: `send_dmx` always returns a boolean instead of raising — an
empty or oversized channel list is rejected with `False` before any
packet is emitted, and the timeout, socket-error and generic-exception
paths all return `False` with no datagram; `True` is only possible when
the transport call succeeded. Stated for both controller variants. -/
theorem send_dmx_returns_bool (stM : MainCtrlState) (stC : CoreCtrlState)
    (oc : SendOutcome) (ip : String) (u : Nat) (ch : List Int) :
    (ch.length = 0 ∨ ch.length > 512 →
      sendDmxMain stM oc ip u ch = (stM, false, none) ∧
      sendDmxCore stC oc ip u ch = (stC, false, none)) ∧
    (oc ≠ SendOutcome.ok →
      (sendDmxMain stM oc ip u ch).2.1 = false ∧
      (sendDmxMain stM oc ip u ch).2.2 = none ∧
      (sendDmxCore stC oc ip u ch).2.1 = false ∧
      (sendDmxCore stC oc ip u ch).2.2 = none) ∧
    ((sendDmxMain stM oc ip u ch).2.1 = true → oc = SendOutcome.ok) := by
  refine ⟨fun h => ⟨?_, ?_⟩, fun h => ?_, fun h => ?_⟩
  · unfold sendDmxMain
    rw [if_pos h]
  · unfold sendDmxCore
    rw [if_pos h]
  · unfold sendDmxMain sendDmxCore
    cases oc <;> simp_all <;> split_ifs <;> simp
  · cases oc
    · rfl
    all_goals
      exfalso
      revert h
      unfold sendDmxMain
      split_ifs <;> simp

/-- Witness for `send_dmx_returns_bool`: the empty channel list and the
timeout outcome. -/
theorem send_dmx_returns_bool_witness :
    (([] : List Int).length = 0 ∨ ([] : List Int).length > 512) ∧
    sendDmxMain ⟨0⟩ SendOutcome.timeout "10.0.0.5" 0 [] =
      (⟨0⟩, false, none) ∧
    sendDmxCore ⟨[], 0⟩ SendOutcome.timeout "10.0.0.5" 0 [] =
      (⟨[], 0⟩, false, none) ∧
    SendOutcome.timeout ≠ SendOutcome.ok ∧
    (sendDmxMain ⟨0⟩ SendOutcome.timeout "10.0.0.5" 0 [255]).2.1 = false :=
  ⟨Or.inl rfl,
    ((send_dmx_returns_bool ⟨0⟩ ⟨[], 0⟩ SendOutcome.timeout "10.0.0.5" 0
      []).1 (Or.inl rfl)).1,
    ((send_dmx_returns_bool ⟨0⟩ ⟨[], 0⟩ SendOutcome.timeout "10.0.0.5" 0
      []).1 (Or.inl rfl)).2,
    by decide,
    ((send_dmx_returns_bool ⟨0⟩ ⟨[], 0⟩ SendOutcome.timeout "10.0.0.5" 0
      [255]).2.1 (by decide)).1⟩

end Dmx
